import Mathlib

/-!
Shallow embedding of the weixin-openapi core: src/core/client.ts,
src/core/error.ts, src/core/fetcher.ts and src/core/memory-store.ts.

Network and clock effects are made explicit. An Env record supplies the
remote responses as oracles indexed by call count, together with the current
time in milliseconds; an St record carries the token store contents and the
effect counters that the verified properties inspect. The clock is held
fixed across one run, matching runs whose latency is negligible against
token lifetimes.
-/

/-- Error payload of the remote API, the fields errcode and errmsg
(WeixinErrorResponse in src/core/types.ts). -/
structure WeixinErrorResponse where
  errcode : Int
  errmsg : String
deriving Repr, DecidableEq

/-- Typed errors produced by createError in src/core/error.ts: the general
WeixinError class and its subtype WeixinAuthCodeError. -/
inductive WError where
  | weixin (message : String) (response : WeixinErrorResponse)
  | authCode (message : String) (response : WeixinErrorResponse)
deriving Repr, DecidableEq

/-- Value of the name property: the constructor name of the error class. -/
def WError.name : WError → String
  | .weixin _ _ => "WeixinError"
  | .authCode _ _ => "WeixinAuthCodeError"

/-- Value of the message property. -/
def WError.message : WError → String
  | .weixin m _ => m
  | .authCode m _ => m

/-- Value of the response property. -/
def WError.response : WError → WeixinErrorResponse
  | .weixin _ r => r
  | .authCode _ r => r

/-- Shape of the object returned by WeixinError.toJSON. -/
structure ErrorJSON where
  name : String
  message : String
  response : WeixinErrorResponse
deriving Repr, DecidableEq

/-- Models WeixinError.toJSON from src/core/error.ts. -/
def WError.toJSON (e : WError) : ErrorJSON :=
  { name := e.name, message := e.message, response := e.response }

/-- Models authcodeErrorMap from src/core/error.ts, the fixed table of
authorization-code failures. -/
def authcodeErrorMap (errcode : Int) : Option String :=
  if errcode = 40029 then some "invalid code"
  else if errcode = 40163 then some "code has been used"
  else if errcode = 42003 then some "code has expired"
  else none

/-- Models formatMessage from src/core/error.ts. The source tests whether
the last character of title is a dot; on the empty string that test is
false, and String.back of the empty string is the default character, also
not a dot. -/
def formatMessage (title detail : String) : String :=
  if title.back = '.' then title.dropRight 1 ++ ": " ++ detail ++ "."
  else title ++ ": " ++ detail

/-- Models createError from src/core/error.ts. -/
def createError (message : String) (response : WeixinErrorResponse) : WError :=
  match authcodeErrorMap response.errcode with
  | some authCodeMessage => .authCode (formatMessage message authCodeMessage) response
  | none => .weixin message response

/-- HTTP method of the transport; fetcher.ts handles GET and POST. -/
inductive Method where
  | GET
  | POST
deriving Repr, DecidableEq

/-- Parsed JSON body of a remote response. errcode none models a JSON object
without an errcode field; payload stands for all remaining fields. -/
structure JsonBody where
  errcode : Option Int
  errmsg : String
  payload : String
deriving Repr, DecidableEq

/-- Raw HTTP response: the content-type header (none when absent) and the
body in parsed JSON form. A binary body is one whose contentType does not
indicate JSON; its JSON view is never inspected by the code in that case. -/
structure RawResponse where
  contentType : Option String
  body : JsonBody
deriving Repr, DecidableEq

/-- Models the content-type test of client.ts line 107: the header is
present and starts with application/json. -/
def contentTypeIsJson (ct : Option String) : Bool :=
  match ct with
  | some s => "application/json".data.isPrefixOf s.data
  | none => false

/-- Models request from src/core/fetcher.ts. The source first rejects any
path whose first character is not a slash (true in particular for the empty
path) and otherwise performs exactly one network call; URL construction is
not modelled, no property mentions it. oracle i is the response of network
call number i, zero based; dataCalls is the number of calls made so far,
returned unchanged when validation fails before the network call. -/
def fetcherRequest (method : Method) (path : String) (accessToken : Option String)
    (params : List (String × String)) (oracle : Nat → RawResponse)
    (dataCalls : Nat) : Except String RawResponse × Nat :=
  if path.data.head? = some '/' then (.ok (oracle dataCalls), dataCalls + 1)
  else (.error "Path must start with a slash", dataCalls)

/-- Stored token value: the client stores an object holding the
access_token field, per WeixinToken in src/core/types.ts as written by
getAccessToken. -/
structure StoredToken where
  access_token : String
deriving Repr, DecidableEq

/-- Entry of WeixinMemoryStore: token data plus the absolute expiry time in
milliseconds (src/core/memory-store.ts). -/
structure StoreEntry where
  data : StoredToken
  expiresAt : Int
deriving Repr, DecidableEq

/-- Contents of a WeixinMemoryStore: keyed entries, newest binding first. -/
abbrev Store := List (String × StoreEntry)

/-- Removes every binding of the given key. -/
def eraseKey (key : String) (s : Store) : Store :=
  s.filter (fun p => p.1 != key)

/-- Looks up the entry bound to the key. -/
def lookupKey (key : String) (s : Store) : Option StoreEntry :=
  (s.find? (fun p => p.1 == key)).map (fun p => p.2)

/-- Models WeixinMemoryStore.set: binds the key to the token, with expiresAt
equal to now plus the ttl converted from seconds to milliseconds. -/
def storeSet (s : Store) (key : String) (tok : StoredToken) (ttl : Int)
    (now : Int) : Store :=
  (key, { data := tok, expiresAt := now + ttl * 1000 }) :: eraseKey key s

/-- Models WeixinMemoryStore.get together with its getTokenData helper: a
missing key yields none; an entry whose expiresAt is at most now is deleted
and yields none; otherwise the stored data is returned, store unchanged. -/
def storeGet (s : Store) (key : String) (now : Int) : Option StoredToken × Store :=
  match lookupKey key s with
  | none => (none, s)
  | some e => if e.expiresAt ≤ now then (none, eraseKey key s) else (some e.data, s)

/-- Models WeixinMemoryStore.delete. -/
def storeDelete (s : Store) (key : String) : Store :=
  eraseKey key s

/-- Models String.prototype.slice with arguments 0 and n, on the character
list of the string. -/
def sliceTo (s : String) (n : Nat) : String :=
  String.mk (s.data.take n)

/-- Models compositeKey from src/core/client.ts lines 232 to 235: appid, a
colon, the first six characters of the given secret argument, and the
stable discriminator suffix. -/
def compositeKey (appid secret : String) (stable : Bool) : String :=
  appid ++ ":" ++ sliceTo secret 6 ++ (if stable then ":stable" else "")

/-- Cache key as computed inside getAccessToken, client.ts line 127:
compositeKey applied to the already truncated secret. -/
def accessTokenCacheKey (appid secret : String) : String :=
  compositeKey appid (sliceTo secret 6) false

/-- Cache key as computed inside getStableAccessToken, client.ts line 154. -/
def stableTokenCacheKey (appid secret : String) : String :=
  compositeKey appid (sliceTo secret 6) true

/-- Result of the remote token creation endpoints createAccessToken and
createStableAccessToken in src/core/fetcher.ts: either an object holding
access_token and expires_in, or an error payload. -/
inductive TokenResp where
  | ok (access_token : String) (expires_in : Int)
  | err (response : WeixinErrorResponse)
deriving Repr, DecidableEq

/-- Environment of a run: oracles giving the remote responses by call
index, and the clock in milliseconds. The stable oracle also receives the
force_refresh flag that createStableAccessToken forwards. -/
structure Env where
  tokenOracle : Nat → TokenResp
  stableOracle : Nat → Bool → TokenResp
  dataOracle : Nat → RawResponse
  now : Int

/-- Client configuration, WeixinOptions minus the store, which lives in
St. -/
structure WeixinOptions where
  appid : String
  secret : String
deriving Repr, DecidableEq

/-- State threaded through a run: the store contents plus effect counters.
tokenCalls counts createAccessToken network calls, stableTokenCalls counts
createStableAccessToken network calls, dataCalls counts fetcher.request
network calls, getATCalls counts invocations of getAccessToken, and
fetchLog records, for each createAccessToken call in order, the
forceRefresh flag of the getAccessToken invocation that issued it. -/
structure St where
  store : Store
  tokenCalls : Nat
  stableTokenCalls : Nat
  dataCalls : Nat
  getATCalls : Nat
  fetchLog : List Bool
deriving Repr, DecidableEq

/-- Errors surfaced by the client: a typed WeixinError, or the plain Error
thrown by the transport path validation. -/
inductive ClientError where
  | w (e : WError)
  | js (msg : String)
deriving Repr, DecidableEq

/-- Models WeixinClient.getAccessToken, client.ts lines 125 to 145. -/
def getAccessToken (opts : WeixinOptions) (env : Env) (forceRefresh : Bool)
    (st0 : St) : Except ClientError String × St :=
  let st := { st0 with getATCalls := st0.getATCalls + 1 }
  let key := compositeKey opts.appid (sliceTo opts.secret 6) false
  match (if forceRefresh then ((none : Option StoredToken), storeDelete st.store key)
         else storeGet st.store key env.now) with
  | (some tok, s1) => (.ok tok.access_token, { st with store := s1 })
  | (none, s1) =>
    let resp := env.tokenOracle st.tokenCalls
    let st1 : St :=
      { st with
        store := s1,
        tokenCalls := st.tokenCalls + 1,
        fetchLog := st.fetchLog ++ [forceRefresh] }
    match resp with
    | .ok access_token expires_in =>
      let ttl := expires_in - 10
      (.ok access_token,
       { st1 with store := storeSet st1.store key { access_token := access_token } ttl env.now })
    | .err r =>
      (.error (.w (createError "Unable to get an access token." r)), st1)

/-- Models WeixinClient.getStableAccessToken, client.ts lines 152 to 172.
The stable variant keeps its own network counter and does not touch
getATCalls, which counts the standard getAccessToken only. -/
def getStableAccessToken (opts : WeixinOptions) (env : Env) (forceRefresh : Bool)
    (st : St) : Except ClientError String × St :=
  let key := compositeKey opts.appid (sliceTo opts.secret 6) true
  match (if forceRefresh then ((none : Option StoredToken), storeDelete st.store key)
         else storeGet st.store key env.now) with
  | (some tok, s1) => (.ok tok.access_token, { st with store := s1 })
  | (none, s1) =>
    let resp := env.stableOracle st.stableTokenCalls forceRefresh
    let st1 := { st with store := s1, stableTokenCalls := st.stableTokenCalls + 1 }
    match resp with
    | .ok access_token expires_in =>
      let ttl := expires_in - 10
      (.ok access_token,
       { st1 with store := storeSet st1.store key { access_token := access_token } ttl env.now })
    | .err r =>
      (.error (.w (createError "Unable to get a stable access token." r)), st1)

/-- Message of the error thrown by the request methods; the source wraps the
path in single quotes, omitted here. -/
def requestFailMsg (path : String) : String :=
  "Request to " ++ path ++ " is failed."

/-- Models the private method request of WeixinClient, client.ts lines 71
to 91: fetch a token, perform the data call, parse the body as JSON; on a
present nonzero errcode either retry once on 40001 from the first attempt,
with a forced token refresh, or throw. -/
def requestJson (opts : WeixinOptions) (env : Env) (method : Method)
    (path : String) (isRetry : Bool) (st0 : St) :
    Except ClientError JsonBody × St :=
  match getAccessToken opts env false st0 with
  | (.error e, st1) => (.error e, st1)
  | (.ok accessToken, st1) =>
    match fetcherRequest method path (some accessToken) [] env.dataOracle st1.dataCalls with
    | (.error m, n) => (.error (.js m), { st1 with dataCalls := n })
    | (.ok res, n) =>
      let st2 := { st1 with dataCalls := n }
      let data := res.body
      if data.errcode ≠ none ∧ data.errcode ≠ some 0 then
        if hR : isRetry = false ∧ data.errcode = some 40001 then
          match getAccessToken opts env true st2 with
          | (.error e, st3) => (.error e, st3)
          | (.ok _, st3) => requestJson opts env method path true st3
        else
          (.error (.w (createError (requestFailMsg path)
            { errcode := data.errcode.getD 0, errmsg := data.errmsg })), st2)
      else
        (.ok data, st2)
termination_by (if isRetry then 0 else 1)
decreasing_by simp [hR.1]

/-- Models the private method raw of WeixinClient, client.ts lines 98 to
118: fetch a token, perform the data call; whenever the content-type header
indicates application/json the body is read and the call either retries
once on errcode 40001 from the first attempt or throws, regardless of the
errcode value; any other response is returned as is. When the JSON body has
no errcode field the source compares undefined against 40001, false, and
passes undefined through to createError; here the comparison is against
none and the errcode handed to createError defaults to 0, which the table
also maps to the general error class. -/
def requestRaw (opts : WeixinOptions) (env : Env) (method : Method)
    (path : String) (isRetry : Bool) (st0 : St) :
    Except ClientError RawResponse × St :=
  match getAccessToken opts env false st0 with
  | (.error e, st1) => (.error e, st1)
  | (.ok accessToken, st1) =>
    match fetcherRequest method path (some accessToken) [] env.dataOracle st1.dataCalls with
    | (.error m, n) => (.error (.js m), { st1 with dataCalls := n })
    | (.ok res, n) =>
      let st2 := { st1 with dataCalls := n }
      if contentTypeIsJson res.contentType then
        let data := res.body
        if hR : isRetry = false ∧ data.errcode = some 40001 then
          match getAccessToken opts env true st2 with
          | (.error e, st3) => (.error e, st3)
          | (.ok _, st3) => requestRaw opts env method path true st3
        else
          (.error (.w (createError (requestFailMsg path)
            { errcode := data.errcode.getD 0, errmsg := data.errmsg })), st2)
      else
        (.ok res, st2)
termination_by (if isRetry then 0 else 1)
decreasing_by simp [hR.1]

/-- Public method get of WeixinClient. -/
def clientGet (opts : WeixinOptions) (env : Env) (path : String) (st : St) :
    Except ClientError JsonBody × St :=
  requestJson opts env .GET path false st

/-- Public method post of WeixinClient. -/
def clientPost (opts : WeixinOptions) (env : Env) (path : String) (st : St) :
    Except ClientError JsonBody × St :=
  requestJson opts env .POST path false st

/-- Public method getRaw of WeixinClient. -/
def clientGetRaw (opts : WeixinOptions) (env : Env) (path : String) (st : St) :
    Except ClientError RawResponse × St :=
  requestRaw opts env .GET path false st

/-- Public method postRaw of WeixinClient. -/
def clientPostRaw (opts : WeixinOptions) (env : Env) (path : String) (st : St) :
    Except ClientError RawResponse × St :=
  requestRaw opts env .POST path false st

/-! Helper lemmas about the memory store. -/

/-- Iterates getAccessToken with forceRefresh false, keeping only the state. -/
def iterGetAccessToken (opts : WeixinOptions) (env : Env) : Nat → St → St
  | 0, st => st
  | n + 1, st => iterGetAccessToken opts env n (getAccessToken opts env false st).2

/-- Hypothesis that every standard token creation call in the environment succeeds. -/
def TokenOracleOk (env : Env) : Prop := ∀ i, ∃ a e, env.tokenOracle i = .ok a e

/-- Concrete client configuration used by the concrete runs below. -/
def cexOpts : WeixinOptions := { appid := "wx", secret := "secret" }

/-- Concrete initial state: empty store, all counters zero. -/
def cexSt0 : St :=
  { store := [], tokenCalls := 0, stableTokenCalls := 0, dataCalls := 0,
    getATCalls := 0, fetchLog := [] }

/-- Concrete environment whose first data response carries errcode 40001 and whose later data responses are success payloads; token creation always succeeds. -/
def cexRetryEnv : Env :=
  { tokenOracle := fun _ => .ok "tok" 7200,
    stableOracle := fun _ _ => .ok "stok" 7200,
    dataOracle := fun i =>
      if i = 0 then
        { contentType := some "application/json",
          body := { errcode := some 40001, errmsg := "invalid credential", payload := "" } }
      else
        { contentType := some "application/json",
          body := { errcode := none, errmsg := "", payload := "ok" } },
    now := 0 }

/-- Concrete environment whose data responses have content-type application/json and body errcode 0. -/
def cexJsonZeroEnv : Env :=
  { tokenOracle := fun _ => .ok "tok" 7200,
    stableOracle := fun _ _ => .ok "stok" 7200,
    dataOracle := fun _ =>
      { contentType := some "application/json",
        body := { errcode := some 0, errmsg := "", payload := "qrcode" } },
    now := 0 }

/-- Concrete environment whose data responses have a binary content-type. -/
def cexBinaryEnv : Env :=
  { tokenOracle := fun _ => .ok "tok" 7200,
    stableOracle := fun _ _ => .ok "stok" 7200,
    dataOracle := fun _ =>
      { contentType := some "image/jpeg",
        body := { errcode := none, errmsg := "", payload := "binary" } },
    now := 0 }

/-- Concrete environment whose data responses all carry errcode 40001. -/
def cexDoubleEnv : Env :=
  { tokenOracle := fun _ => .ok "tok" 7200,
    stableOracle := fun _ _ => .ok "stok" 7200,
    dataOracle := fun _ =>
      { contentType := some "application/json",
        body := { errcode := some 40001, errmsg := "invalid credential", payload := "" } },
    now := 0 }

/-- Concrete environment whose token creation endpoints always return error payloads. -/
def cexErrEnv : Env :=
  { tokenOracle := fun _ => .err { errcode := 40125, errmsg := "invalid appsecret" },
    stableOracle := fun _ _ => .err { errcode := 45009, errmsg := "quota exceeded" },
    dataOracle := fun _ =>
      { contentType := none, body := { errcode := none, errmsg := "", payload := "" } },
    now := 0 }

/-- Concrete state holding fresh cached tokens under both the standard and the stable key, with one remote call already recorded. -/
def warmSt : St :=
  { store := [("wx:secret", { data := { access_token := "tokA" }, expiresAt := 5000 }),
              ("wx:secret:stable", { data := { access_token := "tokS" }, expiresAt := 5000 })],
    tokenCalls := 1, stableTokenCalls := 1, dataCalls := 0, getATCalls := 1,
    fetchLog := [false] }

/-- Concrete state holding a fresh cached token under the standard key and zero counters. -/
def warmDataSt : St :=
  { store := [("wx:secret", { data := { access_token := "cached" }, expiresAt := 10000 })],
    tokenCalls := 0, stableTokenCalls := 0, dataCalls := 0, getATCalls := 0,
    fetchLog := [] }

/-! Helper lemmas about the store, the token manager and the request machine. -/

/-- Erasing a key removes every binding of it. -/
lemma lookupKey_eraseKey_self (key : String) (s : Store) :
    lookupKey key (eraseKey key s) = none := by
  simp [lookupKey, eraseKey, List.find?_eq_none, List.mem_filter]

/-- Erasing the key just written restores the erased original. -/
lemma eraseKey_storeSet_self (s : Store) (key : String) (tok : StoredToken)
    (ttl now : Int) : eraseKey key (storeSet s key tok ttl now) = eraseKey key s := by
  simp [eraseKey, storeSet, List.filter_cons, List.filter_filter]

/-- Looking up the key just written finds the fresh entry. -/
lemma lookupKey_storeSet_self (s : Store) (key : String) (tok : StoredToken)
    (ttl now : Int) :
    lookupKey key (storeSet s key tok ttl now) =
      some { data := tok, expiresAt := now + ttl * 1000 } := by
  simp [lookupKey, storeSet, List.find?_cons]

/-- Truncating to six characters twice equals truncating once. -/
lemma sliceTo_sliceTo (s : String) (n : Nat) : sliceTo (sliceTo s n) n = sliceTo s n := by
  dsimp only [sliceTo]
  rw [List.take_take, Nat.min_self]

/-- With forceRefresh false and a fresh entry under the key, getAccessToken returns the cached token and only bumps the invocation counter. -/
lemma getAccessToken_cacheHit (opts : WeixinOptions) (env : Env) (st : St)
    (entry : StoreEntry)
    (hhit : lookupKey (accessTokenCacheKey opts.appid opts.secret) st.store = some entry)
    (hfresh : env.now < entry.expiresAt) :
    getAccessToken opts env false st =
      (.ok entry.data.access_token, { st with getATCalls := st.getATCalls + 1 }) := by
  unfold getAccessToken
  simp only [accessTokenCacheKey] at hhit
  simp [storeGet, hhit, not_le.mpr hfresh]

/-- Stable analog of the cache-hit lemma; the stable variant leaves the state untouched on a hit. -/
lemma getStableAccessToken_cacheHit (opts : WeixinOptions) (env : Env) (st : St)
    (entry : StoreEntry)
    (hhit : lookupKey (stableTokenCacheKey opts.appid opts.secret) st.store = some entry)
    (hfresh : env.now < entry.expiresAt) :
    getStableAccessToken opts env false st = (.ok entry.data.access_token, st) := by
  unfold getStableAccessToken
  simp only [stableTokenCacheKey] at hhit
  simp [storeGet, hhit, not_le.mpr hfresh]

/-- Iterated warm-cache calls leave the store and the remote call counter unchanged. -/
lemma iterGetAccessToken_warm (opts : WeixinOptions) (env : Env) (entry : StoreEntry)
    (hfresh : env.now < entry.expiresAt) : ∀ (n : Nat) (st : St),
    lookupKey (accessTokenCacheKey opts.appid opts.secret) st.store = some entry →
    (iterGetAccessToken opts env n st).store = st.store ∧
    (iterGetAccessToken opts env n st).tokenCalls = st.tokenCalls := by
  intro n
  induction n with
  | zero => intro st _; exact ⟨rfl, rfl⟩
  | succ m ih =>
    intro st hhit
    have hstep := getAccessToken_cacheHit opts env st entry hhit hfresh
    have h2 := ih { st with getATCalls := st.getATCalls + 1 } (by simpa using hhit)
    simpa [iterGetAccessToken, hstep] using h2

/-- When every token creation call succeeds, getAccessToken returns a token, makes no data call, bumps the invocation counter by one and the remote counter by at most one. -/
lemma getAccessToken_ok (opts : WeixinOptions) (env : Env) (fr : Bool) (st : St)
    (h : TokenOracleOk env) :
    ∃ tok st1, getAccessToken opts env fr st = (.ok tok, st1) ∧
      st1.dataCalls = st.dataCalls ∧
      st1.getATCalls = st.getATCalls + 1 ∧
      st1.stableTokenCalls = st.stableTokenCalls ∧
      st1.tokenCalls ≤ st.tokenCalls + 1 := by
  obtain ⟨a, e, he⟩ := h st.tokenCalls
  unfold getAccessToken
  split
  · dsimp only
    rw [he]
    exact ⟨a, _, rfl, rfl, rfl, rfl, Nat.le_refl _⟩
  · dsimp only
    rcases hsc : storeGet st.store (compositeKey opts.appid (sliceTo opts.secret 6) false) env.now
      with ⟨otok, s1⟩
    cases otok with
    | some tok =>
      exact ⟨tok.access_token, _, rfl, rfl, rfl, rfl, Nat.le_succ _⟩
    | none =>
      dsimp only
      rw [he]
      exact ⟨a, _, rfl, rfl, rfl, rfl, Nat.le_refl _⟩

/-- Counter effects of getAccessToken regardless of outcome. -/
lemma getAccessToken_state (opts : WeixinOptions) (env : Env) (fr : Bool) (st : St) :
    ((getAccessToken opts env fr st).2).dataCalls = st.dataCalls ∧
    ((getAccessToken opts env fr st).2).getATCalls = st.getATCalls + 1 ∧
    ((getAccessToken opts env fr st).2).tokenCalls ≤ st.tokenCalls + 1 := by
  unfold getAccessToken
  split
  · dsimp only
    cases env.tokenOracle st.tokenCalls <;> simp
  · dsimp only
    rcases hsc : storeGet st.store (compositeKey opts.appid (sliceTo opts.secret 6) false) env.now
      with ⟨otok, s1⟩
    cases otok with
    | some tok => simp
    | none =>
      dsimp only
      cases env.tokenOracle st.tokenCalls <;> simp

/-- One transport call consumes at most one network call. -/
lemma fetcherRequest_calls_le (m : Method) (p : String) (a : Option String)
    (ps : List (String × String)) (o : Nat → RawResponse) (n : Nat) :
    (fetcherRequest m p a ps o n).2 ≤ n + 1 ∧ n ≤ (fetcherRequest m p a ps o n).2 := by
  unfold fetcherRequest
  split <;> simp

/-- A transport call on a path with a leading slash returns the oracle response and consumes exactly one network call. -/
lemma fetcherRequest_ok (m : Method) (p : String) (a : Option String)
    (ps : List (String × String)) (o : Nat → RawResponse) (n : Nat)
    (hp : p.data.head? = some '/') :
    fetcherRequest m p a ps o n = (.ok (o n), n + 1) := by
  simp [fetcherRequest, hp]

/-- On a cache miss with a successful remote response, getAccessToken stores the fresh token and records an unforced fetch. -/
lemma getAccessToken_miss_ok (opts : WeixinOptions) (env : Env) (st : St)
    (a : String) (e : Int)
    (hmiss : lookupKey (accessTokenCacheKey opts.appid opts.secret) st.store = none)
    (he : env.tokenOracle st.tokenCalls = .ok a e) :
    getAccessToken opts env false st =
      (.ok a,
       { store := storeSet st.store (accessTokenCacheKey opts.appid opts.secret)
           { access_token := a } (e - 10) env.now,
         tokenCalls := st.tokenCalls + 1,
         stableTokenCalls := st.stableTokenCalls,
         dataCalls := st.dataCalls,
         getATCalls := st.getATCalls + 1,
         fetchLog := st.fetchLog ++ [false] }) := by
  unfold getAccessToken
  simp only [accessTokenCacheKey] at hmiss
  simp [storeGet, hmiss, he, accessTokenCacheKey]

/-- With forceRefresh true and a successful remote response, getAccessToken deletes the entry, stores the fresh token and records a forced fetch. -/
lemma getAccessToken_force_ok (opts : WeixinOptions) (env : Env) (st : St)
    (a : String) (e : Int)
    (he : env.tokenOracle st.tokenCalls = .ok a e) :
    getAccessToken opts env true st =
      (.ok a,
       { store := storeSet
           (storeDelete st.store (accessTokenCacheKey opts.appid opts.secret))
           (accessTokenCacheKey opts.appid opts.secret)
           { access_token := a } (e - 10) env.now,
         tokenCalls := st.tokenCalls + 1,
         stableTokenCalls := st.stableTokenCalls,
         dataCalls := st.dataCalls,
         getATCalls := st.getATCalls + 1,
         fetchLog := st.fetchLog ++ [true] }) := by
  unfold getAccessToken
  simp [he, accessTokenCacheKey]

/-- A retried JSON request adds at most one data call and one Token Manager invocation. -/
lemma requestJson_retry_bounds (opts : WeixinOptions) (env : Env) (m : Method)
    (p : String) (st : St) :
    ((requestJson opts env m p true st).2).dataCalls ≤ st.dataCalls + 1 ∧
    ((requestJson opts env m p true st).2).getATCalls ≤ st.getATCalls + 1 := by
  have hstate := getAccessToken_state opts env false st
  unfold requestJson
  rcases hga : getAccessToken opts env false st with ⟨r, st1⟩
  rw [hga] at hstate
  dsimp only at hstate
  obtain ⟨hd, hg, ht⟩ := hstate
  cases r with
  | error e =>
    dsimp only
    constructor <;> omega
  | ok tok =>
    dsimp only
    have hn := fetcherRequest_calls_le m p (some tok) [] env.dataOracle st1.dataCalls
    rcases hfr : fetcherRequest m p (some tok) [] env.dataOracle st1.dataCalls with ⟨fr, n⟩
    rw [hfr] at hn
    dsimp only at hn
    cases fr with
    | error msg =>
      dsimp only
      constructor <;> omega
    | ok res =>
      dsimp only
      split
      · split
        · rename_i hcontra
          exact absurd hcontra.1 (by simp)
        · dsimp only
          constructor <;> omega
      · dsimp only
        constructor <;> omega

/-- A full JSON request adds at most two data calls and three Token Manager invocations. -/
lemma requestJson_bounds (opts : WeixinOptions) (env : Env) (m : Method)
    (p : String) (st : St) :
    ((requestJson opts env m p false st).2).dataCalls ≤ st.dataCalls + 2 ∧
    ((requestJson opts env m p false st).2).getATCalls ≤ st.getATCalls + 3 := by
  have hstate := getAccessToken_state opts env false st
  unfold requestJson
  rcases hga : getAccessToken opts env false st with ⟨r, st1⟩
  rw [hga] at hstate
  dsimp only at hstate
  obtain ⟨hd, hg, ht⟩ := hstate
  cases r with
  | error e =>
    dsimp only
    constructor <;> omega
  | ok tok =>
    dsimp only
    have hn := fetcherRequest_calls_le m p (some tok) [] env.dataOracle st1.dataCalls
    rcases hfr : fetcherRequest m p (some tok) [] env.dataOracle st1.dataCalls with ⟨fr, n⟩
    rw [hfr] at hn
    dsimp only at hn
    cases fr with
    | error msg =>
      dsimp only
      constructor <;> omega
    | ok res =>
      dsimp only
      split
      · split
        · have h2 := getAccessToken_state opts env true
            { store := st1.store, tokenCalls := st1.tokenCalls,
              stableTokenCalls := st1.stableTokenCalls, dataCalls := n,
              getATCalls := st1.getATCalls, fetchLog := st1.fetchLog }
          rcases hga2 : getAccessToken opts env true
            { store := st1.store, tokenCalls := st1.tokenCalls,
              stableTokenCalls := st1.stableTokenCalls, dataCalls := n,
              getATCalls := st1.getATCalls, fetchLog := st1.fetchLog } with ⟨r2, st3⟩
          rw [hga2] at h2
          dsimp only at h2
          obtain ⟨hd2, hg2, ht2⟩ := h2
          cases r2 with
          | error e2 =>
            dsimp only
            constructor <;> omega
          | ok tok2 =>
            dsimp only
            have hrec := requestJson_retry_bounds opts env m p st3
            constructor <;> omega
        · dsimp only
          constructor <;> omega
      · dsimp only
        constructor <;> omega

/-- A retried raw request adds at most one data call and one Token Manager invocation. -/
lemma requestRaw_retry_bounds (opts : WeixinOptions) (env : Env) (m : Method)
    (p : String) (st : St) :
    ((requestRaw opts env m p true st).2).dataCalls ≤ st.dataCalls + 1 ∧
    ((requestRaw opts env m p true st).2).getATCalls ≤ st.getATCalls + 1 := by
  have hstate := getAccessToken_state opts env false st
  unfold requestRaw
  rcases hga : getAccessToken opts env false st with ⟨r, st1⟩
  rw [hga] at hstate
  dsimp only at hstate
  obtain ⟨hd, hg, ht⟩ := hstate
  cases r with
  | error e =>
    dsimp only
    constructor <;> omega
  | ok tok =>
    dsimp only
    have hn := fetcherRequest_calls_le m p (some tok) [] env.dataOracle st1.dataCalls
    rcases hfr : fetcherRequest m p (some tok) [] env.dataOracle st1.dataCalls with ⟨fr, n⟩
    rw [hfr] at hn
    dsimp only at hn
    cases fr with
    | error msg =>
      dsimp only
      constructor <;> omega
    | ok res =>
      dsimp only
      split
      · split
        · rename_i hcontra
          exact absurd hcontra.1 (by simp)
        · dsimp only
          constructor <;> omega
      · dsimp only
        constructor <;> omega

/-- A full raw request adds at most two data calls and three Token Manager invocations. -/
lemma requestRaw_bounds (opts : WeixinOptions) (env : Env) (m : Method)
    (p : String) (st : St) :
    ((requestRaw opts env m p false st).2).dataCalls ≤ st.dataCalls + 2 ∧
    ((requestRaw opts env m p false st).2).getATCalls ≤ st.getATCalls + 3 := by
  have hstate := getAccessToken_state opts env false st
  unfold requestRaw
  rcases hga : getAccessToken opts env false st with ⟨r, st1⟩
  rw [hga] at hstate
  dsimp only at hstate
  obtain ⟨hd, hg, ht⟩ := hstate
  cases r with
  | error e =>
    dsimp only
    constructor <;> omega
  | ok tok =>
    dsimp only
    have hn := fetcherRequest_calls_le m p (some tok) [] env.dataOracle st1.dataCalls
    rcases hfr : fetcherRequest m p (some tok) [] env.dataOracle st1.dataCalls with ⟨fr, n⟩
    rw [hfr] at hn
    dsimp only at hn
    cases fr with
    | error msg =>
      dsimp only
      constructor <;> omega
    | ok res =>
      dsimp only
      split
      · split
        · have h2 := getAccessToken_state opts env true
            { store := st1.store, tokenCalls := st1.tokenCalls,
              stableTokenCalls := st1.stableTokenCalls, dataCalls := n,
              getATCalls := st1.getATCalls, fetchLog := st1.fetchLog }
          rcases hga2 : getAccessToken opts env true
            { store := st1.store, tokenCalls := st1.tokenCalls,
              stableTokenCalls := st1.stableTokenCalls, dataCalls := n,
              getATCalls := st1.getATCalls, fetchLog := st1.fetchLog } with ⟨r2, st3⟩
          rw [hga2] at h2
          dsimp only at h2
          obtain ⟨hd2, hg2, ht2⟩ := h2
          cases r2 with
          | error e2 =>
            dsimp only
            constructor <;> omega
          | ok tok2 =>
            dsimp only
            have hrec := requestRaw_retry_bounds opts env m p st3
            constructor <;> omega
        · dsimp only
          constructor <;> omega
      · dsimp only
        constructor <;> omega

/-! Theorems settling the claims, with their witnesses and counterexamples. -/

/-- Counterexample for C1 as stated: a getRaw call whose response has content-type application/json and body errcode 0 raises an error instead of returning the response, although the claim says a response with errcode zero is returned successfully. -/
theorem rawJsonZeroRaises :
    (clientGetRaw cexOpts cexJsonZeroEnv "/media" cexSt0).1 =
      .error (.w (.weixin (requestFailMsg "/media") { errcode := 0, errmsg := "" })) ∧
    (cexJsonZeroEnv.dataOracle 0).body.errcode = some 0 := by
  constructor
  · simp [clientGetRaw, requestRaw, getAccessToken, fetcherRequest, storeGet, storeSet,
      storeDelete, lookupKey, eraseKey, compositeKey, sliceTo, accessTokenCacheKey,
      contentTypeIsJson, createError, authcodeErrorMap, requestFailMsg, formatMessage,
      cexOpts, cexJsonZeroEnv, cexSt0]
  · decide

/-- Claim C1 amended: a raw request whose response content-type does not indicate application/json returns the raw response successfully, bypassing error inspection; any response whose content-type indicates application/json leads to a retry or a raised error, even when its parsed body has errcode absent or equal to zero. -/
theorem rawResponseHandling : ∀ (opts : WeixinOptions) (env : Env) (method : Method)
    (path : String) (st : St),
    TokenOracleOk env →
    path.data.head? = some '/' →
    (contentTypeIsJson (env.dataOracle st.dataCalls).contentType = false →
      ∃ st1, requestRaw opts env method path false st =
        (.ok (env.dataOracle st.dataCalls), st1)) ∧
    (contentTypeIsJson (env.dataOracle st.dataCalls).contentType = true →
      ((env.dataOracle st.dataCalls).body.errcode = none ∨
       (env.dataOracle st.dataCalls).body.errcode = some 0) →
      ∃ e st1, requestRaw opts env method path false st = (.error e, st1)) := by
  intro opts env m path st hTok hp
  constructor
  · intro hct
    obtain ⟨tok, st1, hga, hd1, hg1, hs1, ht1⟩ := getAccessToken_ok opts env false st hTok
    unfold requestRaw
    rw [hga]
    dsimp only
    rw [fetcherRequest_ok m path (some tok) [] env.dataOracle st1.dataCalls hp, hd1]
    dsimp only
    simp only [hct]
    refine ⟨{ store := st1.store, tokenCalls := st1.tokenCalls,
              stableTokenCalls := st1.stableTokenCalls, dataCalls := st.dataCalls + 1,
              getATCalls := st1.getATCalls, fetchLog := st1.fetchLog }, ?_⟩
    rw [if_neg (by simp)]
  · intro hct hzero
    obtain ⟨tok, st1, hga, hd1, hg1, hs1, ht1⟩ := getAccessToken_ok opts env false st hTok
    unfold requestRaw
    rw [hga]
    dsimp only
    rw [fetcherRequest_ok m path (some tok) [] env.dataOracle st1.dataCalls hp, hd1]
    dsimp only
    simp only [hct]
    rw [if_pos trivial]
    rcases hzero with h0 | h0 <;>
      rw [dif_neg (by simp [h0])] <;>
      exact ⟨_, { store := st1.store, tokenCalls := st1.tokenCalls,
                  stableTokenCalls := st1.stableTokenCalls, dataCalls := st.dataCalls + 1,
                  getATCalls := st1.getATCalls, fetchLog := st1.fetchLog }, rfl⟩

/-- Witness for C1 amended at a concrete binary response and a concrete JSON errcode zero response. -/
theorem rawResponseHandling_witness :
    (clientGetRaw cexOpts cexBinaryEnv "/media" cexSt0).1 =
      .ok (cexBinaryEnv.dataOracle 0) ∧
    (clientGetRaw cexOpts cexJsonZeroEnv "/media" cexSt0).1 ≠
      .ok (cexJsonZeroEnv.dataOracle 0) := by
  have h := rawResponseHandling cexOpts cexBinaryEnv .GET "/media" cexSt0
    (fun _ => ⟨"tok", 7200, rfl⟩) (by decide)
  obtain ⟨st1, hEq⟩ := h.1 (by decide)
  have h2 := rawResponseHandling cexOpts cexJsonZeroEnv .GET "/media" cexSt0
    (fun _ => ⟨"tok", 7200, rfl⟩) (by decide)
  obtain ⟨e, st2, hEq2⟩ := h2.2 (by decide) (Or.inr (by decide))
  unfold clientGetRaw
  rw [hEq, hEq2]
  exact ⟨rfl, by simp⟩

/-- Counterexample for C2 as stated: on the single permitted 40001 retry the code invokes getAccessToken three times, once per attempt plus once for the forced refresh, exceeding the claimed bound of two; the data-endpoint calls stay at two. -/
theorem tokenManagerInvokedThrice :
    (clientGet cexOpts cexRetryEnv "/p" cexSt0).2.getATCalls = 3 ∧
    ¬ (clientGet cexOpts cexRetryEnv "/p" cexSt0).2.getATCalls ≤ 2 ∧
    (clientGet cexOpts cexRetryEnv "/p" cexSt0).2.dataCalls = 2 := by
  refine ⟨?h3, ?_, ?h2⟩
  case h3 =>
    simp [clientGet, requestJson, getAccessToken, fetcherRequest, storeGet, storeSet,
      storeDelete, lookupKey, eraseKey, compositeKey, sliceTo, accessTokenCacheKey,
      contentTypeIsJson, createError, authcodeErrorMap, requestFailMsg, formatMessage,
      cexOpts, cexRetryEnv, cexSt0]
  case h2 =>
    simp [clientGet, requestJson, getAccessToken, fetcherRequest, storeGet, storeSet,
      storeDelete, lookupKey, eraseKey, compositeKey, sliceTo, accessTokenCacheKey,
      contentTypeIsJson, createError, authcodeErrorMap, requestFailMsg, formatMessage,
      cexOpts, cexRetryEnv, cexSt0]
  · intro hle
    have h3 : (clientGet cexOpts cexRetryEnv "/p" cexSt0).2.getATCalls = 3 := by
      simp [clientGet, requestJson, getAccessToken, fetcherRequest, storeGet, storeSet,
        storeDelete, lookupKey, eraseKey, compositeKey, sliceTo, accessTokenCacheKey,
        contentTypeIsJson, createError, authcodeErrorMap, requestFailMsg, formatMessage,
        cexOpts, cexRetryEnv, cexSt0]
    omega

/-- Claim C2 amended: for every logical request through get, post, getRaw or postRaw, the Token Manager is invoked at most three times and at most two data-endpoint network calls are made. -/
theorem requestCallBounds : ∀ (opts : WeixinOptions) (env : Env) (path : String) (st : St),
    ((clientGet opts env path st).2.getATCalls ≤ st.getATCalls + 3 ∧
     (clientGet opts env path st).2.dataCalls ≤ st.dataCalls + 2) ∧
    ((clientPost opts env path st).2.getATCalls ≤ st.getATCalls + 3 ∧
     (clientPost opts env path st).2.dataCalls ≤ st.dataCalls + 2) ∧
    ((clientGetRaw opts env path st).2.getATCalls ≤ st.getATCalls + 3 ∧
     (clientGetRaw opts env path st).2.dataCalls ≤ st.dataCalls + 2) ∧
    ((clientPostRaw opts env path st).2.getATCalls ≤ st.getATCalls + 3 ∧
     (clientPostRaw opts env path st).2.dataCalls ≤ st.dataCalls + 2) := by
  intro opts env path st
  exact ⟨⟨(requestJson_bounds opts env .GET path st).2, (requestJson_bounds opts env .GET path st).1⟩,
    ⟨(requestJson_bounds opts env .POST path st).2, (requestJson_bounds opts env .POST path st).1⟩,
    ⟨(requestRaw_bounds opts env .GET path st).2, (requestRaw_bounds opts env .GET path st).1⟩,
    ⟨(requestRaw_bounds opts env .POST path st).2, (requestRaw_bounds opts env .POST path st).1⟩⟩

/-- Counterexample for C3 as stated: the secrets abcdefg and abcdefh differ,
yet both clients compute the same cache key, because the key only involves
the first six characters of the secret. -/
theorem compositeKeyCollision :
    accessTokenCacheKey "wx" "abcdefg" = accessTokenCacheKey "wx" "abcdefh" ∧
    ("abcdefg" : String) ≠ "abcdefh" := by
  constructor
  · decide
  · decide

/-- C3 amended: two clients with the same appid whose secrets differ within
their first six characters compute different composite cache keys. -/
theorem compositeKeyIsolation : ∀ (appid s1 s2 : String),
    sliceTo s1 6 ≠ sliceTo s2 6 →
    accessTokenCacheKey appid s1 ≠ accessTokenCacheKey appid s2 := by
  intro a s1 s2 hne heq
  apply hne
  simp only [accessTokenCacheKey, compositeKey, sliceTo_sliceTo] at heq
  have h2 : (a ++ ":").data ++ (sliceTo s1 6).data =
      (a ++ ":").data ++ (sliceTo s2 6).data := by
    have h3 := congrArg String.data heq
    simpa using h3
  exact String.ext (List.append_cancel_left h2)

/-- Witness for C3 amended at concrete appid and secrets differing in their
sixth character. -/
theorem compositeKeyIsolation_witness :
    accessTokenCacheKey "wx" "abcdef-tail" ≠ accessTokenCacheKey "wx" "abcdeX-tail" :=
  compositeKeyIsolation "wx" "abcdef-tail" "abcdeX-tail" (by decide)

/-- Counterexample for C4 as stated: starting from a warm cache, a 40001 response followed by a success payload invokes the remote token-creation primitive exactly once, not twice, because the first attempt reads the cached token. -/
theorem warmCacheRetrySingleTokenCall :
    (clientGet cexOpts cexRetryEnv "/p" warmDataSt).1 = .ok (cexRetryEnv.dataOracle 1).body ∧
    (clientGet cexOpts cexRetryEnv "/p" warmDataSt).2.tokenCalls = 1 ∧
    ¬ (clientGet cexOpts cexRetryEnv "/p" warmDataSt).2.tokenCalls = 2 := by
  have h1 : (clientGet cexOpts cexRetryEnv "/p" warmDataSt).2.tokenCalls = 1 := by
    simp [clientGet, requestJson, getAccessToken, fetcherRequest, storeGet, storeSet,
      storeDelete, lookupKey, eraseKey, compositeKey, sliceTo, accessTokenCacheKey,
      contentTypeIsJson, createError, authcodeErrorMap, requestFailMsg, formatMessage,
      cexOpts, cexRetryEnv, warmDataSt]
  refine ⟨?_, h1, by omega⟩
  simp [clientGet, requestJson, getAccessToken, fetcherRequest, storeGet, storeSet,
    storeDelete, lookupKey, eraseKey, compositeKey, sliceTo, accessTokenCacheKey,
    contentTypeIsJson, createError, authcodeErrorMap, requestFailMsg, formatMessage,
    cexOpts, cexRetryEnv, warmDataSt]

/-- Claim C4 amended: starting from a cold cache, with token responses whose expires_in exceeds 10, a first data response carrying errcode 40001 followed by a success payload makes the request return the success payload, with the token-creation primitive invoked exactly twice, the first time unforced and the second time via a forced refresh, for the JSON form and for the raw form. -/
theorem retryOn40001ColdCache : ∀ (opts : WeixinOptions) (env : Env)
    (method : Method) (path : String) (st : St) (a0 a1 : String) (e0 e1 : Int),
    lookupKey (accessTokenCacheKey opts.appid opts.secret) st.store = none →
    env.tokenOracle st.tokenCalls = .ok a0 e0 →
    env.tokenOracle (st.tokenCalls + 1) = .ok a1 e1 →
    10 < e1 →
    path.data.head? = some '/' →
    (env.dataOracle st.dataCalls).body.errcode = some 40001 →
    (((env.dataOracle (st.dataCalls + 1)).body.errcode = none ∨
      (env.dataOracle (st.dataCalls + 1)).body.errcode = some 0) →
     ∃ st2, requestJson opts env method path false st =
        (.ok (env.dataOracle (st.dataCalls + 1)).body, st2) ∧
      st2.tokenCalls = st.tokenCalls + 2 ∧
      st2.fetchLog = st.fetchLog ++ [false, true] ∧
      st2.dataCalls = st.dataCalls + 2) ∧
    (contentTypeIsJson (env.dataOracle st.dataCalls).contentType = true →
     contentTypeIsJson (env.dataOracle (st.dataCalls + 1)).contentType = false →
     ∃ st2, requestRaw opts env method path false st =
        (.ok (env.dataOracle (st.dataCalls + 1)), st2) ∧
      st2.tokenCalls = st.tokenCalls + 2 ∧
      st2.fetchLog = st.fetchLog ++ [false, true] ∧
      st2.dataCalls = st.dataCalls + 2) := by
  intro opts env m path st a0 a1 e0 e1 hmiss htok0 htok1 he1 hp h40
  constructor
  · intro hsucc
    unfold requestJson
    rw [getAccessToken_miss_ok opts env st a0 e0 hmiss htok0]
    dsimp only
    rw [fetcherRequest_ok m path (some a0) [] env.dataOracle st.dataCalls hp]
    dsimp only
    simp only [h40]
    rw [if_pos (by simp), dif_pos ⟨trivial, trivial⟩]
    rw [getAccessToken_force_ok opts env _ a1 e1 htok1]
    dsimp only
    unfold requestJson
    rw [getAccessToken_cacheHit opts env _
      { data := { access_token := a1 }, expiresAt := env.now + (e1 - 10) * 1000 }
      (lookupKey_storeSet_self _ _ _ _ _) (by dsimp only; omega)]
    dsimp only
    rw [fetcherRequest_ok m path (some a1) [] env.dataOracle (st.dataCalls + 1) hp]
    dsimp only
    rcases hsucc with h0 | h0 <;> rw [if_neg (by simp [h0])] <;>
      refine ⟨_, rfl, ?_, ?_, ?_⟩ <;>
      first
      | (dsimp only; omega)
      | simp
  · intro hct0 hct1
    unfold requestRaw
    rw [getAccessToken_miss_ok opts env st a0 e0 hmiss htok0]
    dsimp only
    rw [fetcherRequest_ok m path (some a0) [] env.dataOracle st.dataCalls hp]
    dsimp only
    simp only [hct0, h40]
    rw [if_pos trivial, dif_pos ⟨trivial, trivial⟩]
    rw [getAccessToken_force_ok opts env _ a1 e1 htok1]
    dsimp only
    unfold requestRaw
    rw [getAccessToken_cacheHit opts env _
      { data := { access_token := a1 }, expiresAt := env.now + (e1 - 10) * 1000 }
      (lookupKey_storeSet_self _ _ _ _ _) (by dsimp only; omega)]
    dsimp only
    rw [fetcherRequest_ok m path (some a1) [] env.dataOracle (st.dataCalls + 1) hp]
    dsimp only
    rw [if_neg (by simp [hct1])]
    refine ⟨_, rfl, ?_, ?_, ?_⟩ <;>
    first
    | (dsimp only; omega)
    | simp

/-- Witness for C4 amended at a concrete cold-cache run through get. -/
theorem retryOn40001ColdCache_witness :
    (clientGet cexOpts cexRetryEnv "/p" cexSt0).1 = .ok (cexRetryEnv.dataOracle 1).body ∧
    (clientGet cexOpts cexRetryEnv "/p" cexSt0).2.tokenCalls = 2 ∧
    (clientGet cexOpts cexRetryEnv "/p" cexSt0).2.fetchLog = [false, true] := by
  have h := (retryOn40001ColdCache cexOpts cexRetryEnv .GET "/p" cexSt0 "tok" "tok" 7200 7200
    (by decide) rfl rfl (by decide) (by decide) (by decide)).1 (Or.inl (by decide))
  obtain ⟨st2, hEq, htc, hlg, hdc⟩ := h
  unfold clientGet
  rw [hEq]
  refine ⟨rfl, htc, ?_⟩
  simpa using hlg

/-- Claim C5: when two consecutive data responses both carry errcode 40001, the request terminates with a raised error after exactly one retry, two data calls in total, for the JSON form and for the raw form; the model is a total function, so no run loops. -/
theorem doubleInvalidTokenTerminates : ∀ (opts : WeixinOptions) (env : Env)
    (method : Method) (path : String) (st : St),
    TokenOracleOk env →
    path.data.head? = some '/' →
    (env.dataOracle st.dataCalls).body.errcode = some 40001 →
    (env.dataOracle (st.dataCalls + 1)).body.errcode = some 40001 →
    (∃ st2, requestJson opts env method path false st =
        (.error (.w (.weixin (requestFailMsg path)
          { errcode := 40001, errmsg := (env.dataOracle (st.dataCalls + 1)).body.errmsg })), st2) ∧
      st2.dataCalls = st.dataCalls + 2) ∧
    (contentTypeIsJson (env.dataOracle st.dataCalls).contentType = true →
     contentTypeIsJson (env.dataOracle (st.dataCalls + 1)).contentType = true →
     ∃ st2, requestRaw opts env method path false st =
        (.error (.w (.weixin (requestFailMsg path)
          { errcode := 40001, errmsg := (env.dataOracle (st.dataCalls + 1)).body.errmsg })), st2) ∧
      st2.dataCalls = st.dataCalls + 2) := by
  intro opts env m path st hTok hp h40a h40b
  constructor
  · obtain ⟨tok, st1, hga, hd1, hg1, hs1, ht1⟩ := getAccessToken_ok opts env false st hTok
    unfold requestJson
    rw [hga]
    dsimp only
    rw [fetcherRequest_ok m path (some tok) [] env.dataOracle st1.dataCalls hp, hd1]
    dsimp only
    simp only [h40a]
    rw [if_pos (by simp), dif_pos ⟨trivial, trivial⟩]
    obtain ⟨tok2, st3, hga2, hd3, hg3, hs3, ht3⟩ := getAccessToken_ok opts env true
      { store := st1.store, tokenCalls := st1.tokenCalls, stableTokenCalls := st1.stableTokenCalls,
        dataCalls := st.dataCalls + 1, getATCalls := st1.getATCalls, fetchLog := st1.fetchLog } hTok
    rw [hga2]
    dsimp only
    unfold requestJson
    obtain ⟨tok3, st4, hga3, hd4, hg4, hs4, ht4⟩ := getAccessToken_ok opts env false st3 hTok
    rw [hga3]
    dsimp only
    have hd4a : st4.dataCalls = st.dataCalls + 1 := by
      rw [hd4, hd3]
    rw [fetcherRequest_ok m path (some tok3) [] env.dataOracle st4.dataCalls hp, hd4a]
    dsimp only
    simp only [h40b]
    rw [if_pos (by simp), dif_neg (by simp)]
    refine ⟨{ store := st4.store, tokenCalls := st4.tokenCalls,
              stableTokenCalls := st4.stableTokenCalls, dataCalls := st.dataCalls + 1 + 1,
              getATCalls := st4.getATCalls, fetchLog := st4.fetchLog }, ?_, rfl⟩
    simp [createError, authcodeErrorMap]
  · intro hct0 hct1
    obtain ⟨tok, st1, hga, hd1, hg1, hs1, ht1⟩ := getAccessToken_ok opts env false st hTok
    unfold requestRaw
    rw [hga]
    dsimp only
    rw [fetcherRequest_ok m path (some tok) [] env.dataOracle st1.dataCalls hp, hd1]
    dsimp only
    simp only [hct0, h40a]
    rw [if_pos trivial, dif_pos ⟨trivial, trivial⟩]
    obtain ⟨tok2, st3, hga2, hd3, hg3, hs3, ht3⟩ := getAccessToken_ok opts env true
      { store := st1.store, tokenCalls := st1.tokenCalls, stableTokenCalls := st1.stableTokenCalls,
        dataCalls := st.dataCalls + 1, getATCalls := st1.getATCalls, fetchLog := st1.fetchLog } hTok
    rw [hga2]
    dsimp only
    unfold requestRaw
    obtain ⟨tok3, st4, hga3, hd4, hg4, hs4, ht4⟩ := getAccessToken_ok opts env false st3 hTok
    rw [hga3]
    dsimp only
    have hd4a : st4.dataCalls = st.dataCalls + 1 := by
      rw [hd4, hd3]
    rw [fetcherRequest_ok m path (some tok3) [] env.dataOracle st4.dataCalls hp, hd4a]
    dsimp only
    simp only [hct1, h40b]
    rw [if_pos trivial, dif_neg (by simp)]
    refine ⟨{ store := st4.store, tokenCalls := st4.tokenCalls,
              stableTokenCalls := st4.stableTokenCalls, dataCalls := st.dataCalls + 1 + 1,
              getATCalls := st4.getATCalls, fetchLog := st4.fetchLog }, ?_, rfl⟩
    simp [createError, authcodeErrorMap]

/-- Witness for C5 at a concrete environment whose data responses all carry errcode 40001, through get and postRaw. -/
theorem doubleInvalidTokenTerminates_witness :
    (clientGet cexOpts cexDoubleEnv "/p" cexSt0).1 =
      .error (.w (.weixin (requestFailMsg "/p")
        { errcode := 40001, errmsg := "invalid credential" })) ∧
    (clientGet cexOpts cexDoubleEnv "/p" cexSt0).2.dataCalls = 2 ∧
    (clientPostRaw cexOpts cexDoubleEnv "/p" cexSt0).1 =
      .error (.w (.weixin (requestFailMsg "/p")
        { errcode := 40001, errmsg := "invalid credential" })) ∧
    (clientPostRaw cexOpts cexDoubleEnv "/p" cexSt0).2.dataCalls = 2 := by
  have h := doubleInvalidTokenTerminates cexOpts cexDoubleEnv .GET "/p" cexSt0
    (fun _ => ⟨"tok", 7200, rfl⟩) (by decide) (by decide) (by decide)
  have hR := doubleInvalidTokenTerminates cexOpts cexDoubleEnv .POST "/p" cexSt0
    (fun _ => ⟨"tok", 7200, rfl⟩) (by decide) (by decide) (by decide)
  obtain ⟨st2, hEq, hd⟩ := h.1
  obtain ⟨st3, hEq2, hd2⟩ := hR.2 (by decide) (by decide)
  unfold clientGet clientPostRaw
  rw [hEq, hEq2]
  exact ⟨rfl, hd, rfl, hd2⟩

/-- Claim C6: createError maps errcode 40029, 40163 and 42003 to the authorization-code subtype whose message is the context message combined with the phrase, stripping a trailing dot and appending the phrase with a closing dot when the message ends in a dot, and appending the phrase bare otherwise; any other errcode produces the generic subtype with the message unchanged; every produced error serializes to the object with name, message and response. -/
theorem createErrorSpec : ∀ (msg : String) (resp : WeixinErrorResponse),
    (resp.errcode = 40029 → createError msg resp =
      .authCode (if msg.back = '.' then msg.dropRight 1 ++ ": " ++ "invalid code" ++ "."
                 else msg ++ ": " ++ "invalid code") resp) ∧
    (resp.errcode = 40163 → createError msg resp =
      .authCode (if msg.back = '.' then msg.dropRight 1 ++ ": " ++ "code has been used" ++ "."
                 else msg ++ ": " ++ "code has been used") resp) ∧
    (resp.errcode = 42003 → createError msg resp =
      .authCode (if msg.back = '.' then msg.dropRight 1 ++ ": " ++ "code has expired" ++ "."
                 else msg ++ ": " ++ "code has expired") resp) ∧
    (resp.errcode ≠ 40029 → resp.errcode ≠ 40163 → resp.errcode ≠ 42003 →
      createError msg resp = .weixin msg resp) ∧
    (createError msg resp).toJSON =
      { name := (createError msg resp).name,
        message := (createError msg resp).message,
        response := resp } := by
  intro msg resp
  refine ⟨?_, ?_, ?_, ?_, ?_⟩
  · intro h
    simp [createError, authcodeErrorMap, h, formatMessage]
  · intro h
    simp [createError, authcodeErrorMap, h, formatMessage]
  · intro h
    simp [createError, authcodeErrorMap, h, formatMessage]
  · intro h1 h2 h3
    simp [createError, authcodeErrorMap, h1, h2, h3]
  · unfold createError
    cases hmap : authcodeErrorMap resp.errcode <;>
      simp [WError.toJSON, WError.name, WError.message, WError.response]

/-- Witness for C6 at the concrete inputs of the repository test: errcode 40029 gives the authorization-code subtype with the combined message, errcode 40013 gives the generic subtype with the message unchanged. -/
theorem createErrorSpec_witness :
    createError "Unable to create a session." { errcode := 40029, errmsg := "invalid code" } =
      .authCode "Unable to create a session: invalid code."
        { errcode := 40029, errmsg := "invalid code" } ∧
    createError "Unable to create a session." { errcode := 40013, errmsg := "invalid appid" } =
      .weixin "Unable to create a session." { errcode := 40013, errmsg := "invalid appid" } ∧
    (createError "Unable to create a session."
        { errcode := 40029, errmsg := "invalid code" }).toJSON =
      { name := "WeixinAuthCodeError",
        message := "Unable to create a session: invalid code.",
        response := { errcode := 40029, errmsg := "invalid code" } } := by
  have h1 := (createErrorSpec "Unable to create a session."
    { errcode := 40029, errmsg := "invalid code" }).1 rfl
  have h2 := (createErrorSpec "Unable to create a session."
    { errcode := 40013, errmsg := "invalid appid" }).2.2.2.1 (by decide) (by decide) (by decide)
  have h3 := (createErrorSpec "Unable to create a session."
    { errcode := 40029, errmsg := "invalid code" }).2.2.2.2
  refine ⟨?_, h2, ?_⟩
  · rw [h1]
    decide
  · rw [h3, h1]
    decide

/-- C7: any path whose first character is not a slash is rejected by the
transport with the input-validation error, for every method, token, params
and oracle, and the network call counter is returned unchanged, meaning no
network call was made. -/
theorem transportRejectsBadPath : ∀ (method : Method) (path : String)
    (accessToken : Option String) (params : List (String × String))
    (oracle : Nat → RawResponse) (dataCalls : Nat),
    path.data.head? ≠ some '/' →
    fetcherRequest method path accessToken params oracle dataCalls =
      (.error "Path must start with a slash", dataCalls) := by
  intro m p a ps o n h
  simp [fetcherRequest, h]

/-- Witness for C7 on the concrete path cgi-bin/token, for GET and POST. -/
theorem transportRejectsBadPath_witness :
    fetcherRequest .GET "cgi-bin/token" (some "tok") []
        (fun _ => { contentType := none,
                    body := { errcode := none, errmsg := "", payload := "" } }) 0 =
      (.error "Path must start with a slash", 0) ∧
    fetcherRequest .POST "" none []
        (fun _ => { contentType := none,
                    body := { errcode := none, errmsg := "", payload := "" } }) 3 =
      (.error "Path must start with a slash", 3) :=
  ⟨transportRejectsBadPath .GET "cgi-bin/token" (some "tok") [] _ 0 (by decide),
   transportRejectsBadPath .POST "" none [] _ 3 (by decide)⟩

/-- Claim C8: with forceRefresh false and a non-expired entry under the computed key, getAccessToken and getStableAccessToken return the cached access token, leave the store unchanged and make no remote token-creation call; iterated warm calls keep the remote call count unchanged. -/
theorem warmCacheNoRemoteCall : ∀ (opts : WeixinOptions) (env : Env) (st : St)
    (entry entryS : StoreEntry),
    lookupKey (accessTokenCacheKey opts.appid opts.secret) st.store = some entry →
    env.now < entry.expiresAt →
    lookupKey (stableTokenCacheKey opts.appid opts.secret) st.store = some entryS →
    env.now < entryS.expiresAt →
    getAccessToken opts env false st =
      (.ok entry.data.access_token, { st with getATCalls := st.getATCalls + 1 }) ∧
    getStableAccessToken opts env false st = (.ok entryS.data.access_token, st) ∧
    (∀ n, (iterGetAccessToken opts env n st).tokenCalls = st.tokenCalls) := by
  intro opts env st entry entryS h1 h2 h3 h4
  exact ⟨getAccessToken_cacheHit opts env st entry h1 h2,
    getStableAccessToken_cacheHit opts env st entryS h3 h4,
    fun n => (iterGetAccessToken_warm opts env entry h2 n st h1).2⟩

/-- Witness for C8 at a concrete warm store, including five iterated calls that keep the remote call count at the initial one. -/
theorem warmCacheNoRemoteCall_witness :
    getAccessToken cexOpts cexRetryEnv false warmSt =
      (.ok "tokA", { warmSt with getATCalls := 2 }) ∧
    getStableAccessToken cexOpts cexRetryEnv false warmSt = (.ok "tokS", warmSt) ∧
    (iterGetAccessToken cexOpts cexRetryEnv 5 warmSt).tokenCalls = 1 := by
  have h := warmCacheNoRemoteCall cexOpts cexRetryEnv warmSt
    { data := { access_token := "tokA" }, expiresAt := 5000 }
    { data := { access_token := "tokS" }, expiresAt := 5000 }
    (by decide) (by decide) (by decide) (by decide)
  exact ⟨h.1, h.2.1, h.2.2 5⟩

/-- C9: a token stored under a key with TTL ttl seconds at time now is
returned unchanged by get at any time strictly before now plus ttl seconds,
and from expiry on get returns none and the read evicts the entry. Times are
in milliseconds, as in the source. -/
theorem memoryStoreRoundTrip : ∀ (s : Store) (key : String) (tok : StoredToken)
    (ttl now t : Int),
    (t < now + ttl * 1000 →
      storeGet (storeSet s key tok ttl now) key t =
        (some tok, storeSet s key tok ttl now)) ∧
    (now + ttl * 1000 ≤ t →
      (storeGet (storeSet s key tok ttl now) key t).1 = none ∧
      lookupKey key (storeGet (storeSet s key tok ttl now) key t).2 = none) := by
  intro s key tok ttl now t
  constructor
  · intro h
    simp [storeGet, lookupKey_storeSet_self]
    omega
  · intro h
    simp [storeGet, lookupKey_storeSet_self, if_pos h, eraseKey_storeSet_self,
      lookupKey_eraseKey_self]

/-- Witness for C9 at a concrete store, key, token, TTL and read times. -/
theorem memoryStoreRoundTrip_witness :
    (storeGet (storeSet [] "k" { access_token := "t" } 10 0) "k" 5000 =
      (some { access_token := "t" }, storeSet [] "k" { access_token := "t" } 10 0)) ∧
    ((storeGet (storeSet [] "k" { access_token := "t" } 10 0) "k" 10000).1 = none ∧
      lookupKey "k" (storeGet (storeSet [] "k" { access_token := "t" } 10 0) "k" 10000).2 =
        none) :=
  ⟨(memoryStoreRoundTrip [] "k" { access_token := "t" } 10 0 5000).1 (by decide),
   (memoryStoreRoundTrip [] "k" { access_token := "t" } 10 0 10000).2 (by decide)⟩

/-- Claim C10: with forceRefresh true the cache entry under the computed key is deleted before the remote call, so when the remote token creation returns an error payload the method raises and the store no longer contains the previously cached token; likewise for the stable variant. -/
theorem forceRefreshDeletesBeforeFetch : ∀ (opts : WeixinOptions) (env : Env)
    (st : St) (r rs : WeixinErrorResponse),
    env.tokenOracle st.tokenCalls = .err r →
    env.stableOracle st.stableTokenCalls true = .err rs →
    (∃ st1, getAccessToken opts env true st =
        (.error (.w (createError "Unable to get an access token." r)), st1) ∧
      lookupKey (accessTokenCacheKey opts.appid opts.secret) st1.store = none) ∧
    (∃ st2, getStableAccessToken opts env true st =
        (.error (.w (createError "Unable to get a stable access token." rs)), st2) ∧
      lookupKey (stableTokenCacheKey opts.appid opts.secret) st2.store = none) := by
  intro opts env st r rs h1 h2
  constructor
  · refine ⟨{ store := storeDelete st.store (accessTokenCacheKey opts.appid opts.secret),
              tokenCalls := st.tokenCalls + 1,
              stableTokenCalls := st.stableTokenCalls,
              dataCalls := st.dataCalls,
              getATCalls := st.getATCalls + 1,
              fetchLog := st.fetchLog ++ [true] }, ?_, ?_⟩
    · unfold getAccessToken
      simp [h1, accessTokenCacheKey]
    · simp [accessTokenCacheKey, storeDelete, lookupKey_eraseKey_self]
  · refine ⟨{ store := storeDelete st.store (stableTokenCacheKey opts.appid opts.secret),
              tokenCalls := st.tokenCalls,
              stableTokenCalls := st.stableTokenCalls + 1,
              dataCalls := st.dataCalls,
              getATCalls := st.getATCalls,
              fetchLog := st.fetchLog }, ?_, ?_⟩
    · unfold getStableAccessToken
      simp [h2, stableTokenCacheKey]
    · simp [stableTokenCacheKey, storeDelete, lookupKey_eraseKey_self]

/-- Witness for C10 at a concrete warm store and failing token endpoints. -/
theorem forceRefreshDeletesBeforeFetch_witness :
    (getAccessToken cexOpts cexErrEnv true warmSt).1 =
      .error (.w (.weixin "Unable to get an access token."
        { errcode := 40125, errmsg := "invalid appsecret" })) ∧
    lookupKey (accessTokenCacheKey "wx" "secret")
      (getAccessToken cexOpts cexErrEnv true warmSt).2.store = none ∧
    (getStableAccessToken cexOpts cexErrEnv true warmSt).1 =
      .error (.w (.weixin "Unable to get a stable access token."
        { errcode := 45009, errmsg := "quota exceeded" })) ∧
    lookupKey (stableTokenCacheKey "wx" "secret")
      (getStableAccessToken cexOpts cexErrEnv true warmSt).2.store = none := by
  obtain ⟨⟨st1, hEq1, hLk1⟩, ⟨st2, hEq2, hLk2⟩⟩ :=
    forceRefreshDeletesBeforeFetch cexOpts cexErrEnv warmSt
      { errcode := 40125, errmsg := "invalid appsecret" }
      { errcode := 45009, errmsg := "quota exceeded" } rfl rfl
  rw [hEq1, hEq2]
  exact ⟨rfl, hLk1, rfl, hLk2⟩
